import Mathlib

/-!
Shallow embedding of the tokenized_portfolio Anchor program
(src/tokenized_portfolio/src/lib.rs).

Machine integers: every u64 field is a Nat together with explicit wrapping
modulo W = 2^64 (the program performs unguarded Rust release arithmetic,
which wraps).  Guarded subtractions (those that happen only after an
explicit bound check) are written as plain Nat subtraction, which agrees
with u64 subtraction under the guard.

External effects (SPL token CPI transfers, emitted Anchor events, the
advisory log line in check_risk) are recorded in an effect trace.  An
instruction returns a Tx: the in-memory account state at the point the
Rust function returned, the trace of effects performed, and the error if
it returned early.  Every early return in this program happens before any
mutation, so an error Tx carries the unchanged state.
-/

namespace TokenizedPortfolio

/-- The modulus of u64 arithmetic, 2^64. -/
def W : Nat := 18446744073709551616

/-- Wrapping u64 addition. -/
def wadd (a b : Nat) : Nat := (a + b) % W

/-- Wrapping u64 subtraction (operands below W). -/
def wsub (a b : Nat) : Nat := (a + W - b % W) % W

/-- Wrapping u64 multiplication. -/
def wmul (a b : Nat) : Nat := (a * b) % W

/-- Asset entry: symbol, amount, value (lib.rs, struct Asset). -/
structure Asset where
  symbol : String
  amount : Nat
  value : Nat
deriving DecidableEq

/-- Portfolio account state (lib.rs, struct Portfolio).  The owner Pubkey is
modelled as an opaque Nat. -/
structure Portfolio where
  owner : Nat
  total_value : Nat
  total_shares : Nat
  assets : List Asset
  historical_values : List Nat
  last_update_timestamp : Int
  min_value_threshold : Nat
  max_value_threshold : Nat
  management_fee : Nat
  performance_fee : Nat
deriving DecidableEq

/-- Error codes (lib.rs, enum PortfolioError). -/
inductive PortfolioError where
  | AssetNotFound
  | InsufficientBalance
  | UnderMinValue
deriving DecidableEq

/-- Event emitted on asset updates (lib.rs, struct AssetUpdated). -/
structure AssetUpdated where
  owner : Nat
  asset_symbol : String
  old_value : Nat
  new_value : Nat
deriving DecidableEq

/-- Event emitted when fees are applied (lib.rs, struct FeesApplied). -/
structure FeesApplied where
  owner : Nat
  management_fee : Nat
  performance_fee : Nat
deriving DecidableEq

/-- Observable external effects of one instruction. -/
inductive Effect where
  | tokenTransfer (amount : Nat)
  | assetUpdated (e : AssetUpdated)
  | feesApplied (e : FeesApplied)
  | advisoryRebalance
deriving DecidableEq

/-- Result of one instruction: final in-memory state, effect trace, error. -/
structure Tx where
  state : Portfolio
  effects : List Effect
  error : Option PortfolioError
deriving DecidableEq

/-- First asset whose symbol matches, as in Rust iter().find / position. -/
def findAsset (l : List Asset) (s : String) : Option Asset :=
  l.find? (fun a => a.symbol == s)

/-- Apply f to the first asset whose symbol matches; identity when none
matches (the functional rendering of iter_mut().find followed by an
in-place write). -/
def updateFirst (l : List Asset) (s : String) (f : Asset → Asset) : List Asset :=
  match l with
  | [] => []
  | a :: rest => if a.symbol == s then f a :: rest else a :: updateFirst rest s f

/-- A freshly init-ed Anchor account is zeroed; Borsh-decoding zeroed bytes
yields zero scalars and empty vectors. -/
def zeroedPortfolio : Portfolio :=
  ⟨0, 0, 0, [], [], 0, 0, 0, 0, 0⟩

/-- initialize_portfolio (lib.rs 12-24): field assignments on the fresh
(zeroed) account; the clock reading is passed explicitly. -/
def initialize_portfolio (fresh : Portfolio) (owner : Nat) (now : Int) : Portfolio :=
  { fresh with
    owner := owner,
    total_value := 0,
    historical_values := [],
    last_update_timestamp := now,
    min_value_threshold := 0,
    max_value_threshold := W - 1,
    management_fee := 0,
    performance_fee := 0,
    total_shares := 1000000 }

/-- add_asset (lib.rs 27-51): total_value += value (wrapping), push asset,
emit AssetUpdated with old_value = 0. -/
def add_asset (p : Portfolio) (asset_symbol : String) (asset_amount asset_value : Nat) : Tx :=
  let p1 := { p with total_value := wadd p.total_value asset_value }
  let p2 := { p1 with assets := p1.assets ++ [⟨asset_symbol, asset_amount, asset_value⟩] }
  ⟨p2, [Effect.assetUpdated ⟨p.owner, asset_symbol, 0, asset_value⟩], none⟩

/-- transfer_asset (lib.rs 54-79): find first match, check balance,
decrement amount, then CPI transfer. -/
def transfer_asset (p : Portfolio) (asset_symbol : String) (amount : Nat) : Tx :=
  match findAsset p.assets asset_symbol with
  | none => ⟨p, [], some PortfolioError.AssetNotFound⟩
  | some a =>
    if a.amount < amount then ⟨p, [], some PortfolioError.InsufficientBalance⟩
    else
      let newAssets :=
        updateFirst p.assets asset_symbol (fun x => { x with amount := x.amount - amount })
      let p1 := { p with assets := newAssets }
      ⟨p1, [Effect.tokenTransfer amount], none⟩

/-- update_asset_value (lib.rs 82-107): total_value - old_value + new_value
(wrapping, left to right), write value, emit event. -/
def update_asset_value (p : Portfolio) (asset_symbol : String) (new_value : Nat) : Tx :=
  match findAsset p.assets asset_symbol with
  | none => ⟨p, [], some PortfolioError.AssetNotFound⟩
  | some a =>
    let old_value := a.value
    let new_total_value := wadd (wsub p.total_value old_value) new_value
    let p1 := { p with
      assets := updateFirst p.assets asset_symbol (fun x => { x with value := new_value }),
      total_value := new_total_value }
    ⟨p1, [Effect.assetUpdated ⟨p.owner, asset_symbol, old_value, new_value⟩], none⟩

/-- get_oracle_price (lib.rs 558-560): the placeholder always returns Ok(100). -/
def get_oracle_price : Nat := 100

/-- update_asset_value_with_oracle (lib.rs 179-206): same algebra as
update_asset_value with the oracle price as the new value. -/
def update_asset_value_with_oracle (p : Portfolio) (asset_symbol : String) : Tx :=
  match findAsset p.assets asset_symbol with
  | none => ⟨p, [], some PortfolioError.AssetNotFound⟩
  | some a =>
    let old_value := a.value
    let oracle_price := get_oracle_price
    let new_total_value := wadd (wsub p.total_value old_value) oracle_price
    let p1 := { p with
      assets := updateFirst p.assets asset_symbol (fun x => { x with value := oracle_price }),
      total_value := new_total_value }
    ⟨p1, [Effect.assetUpdated ⟨p.owner, asset_symbol, old_value, oracle_price⟩], none⟩

/-- rebalance_portfolio (lib.rs 118-131): capture total_value once, then for
each (symbol, ratio) pair in order write total_value * ratio / 100 into the
first matching asset, skipping pairs with no match; total_value untouched. -/
def rebalance_portfolio (p : Portfolio) (target_ratios : List (String × Nat)) : Tx :=
  let total_value := p.total_value
  let newAssets := target_ratios.foldl
    (fun l tr => updateFirst l tr.1 (fun x => { x with value := wmul total_value tr.2 / 100 }))
    p.assets
  ⟨{ p with assets := newAssets }, [], none⟩

/-- withdraw_asset (lib.rs 134-160): find first match, check balance,
decrement amount, total_value -= amount * value (wrapping), CPI transfer. -/
def withdraw_asset (p : Portfolio) (asset_symbol : String) (amount : Nat) : Tx :=
  match findAsset p.assets asset_symbol with
  | none => ⟨p, [], some PortfolioError.AssetNotFound⟩
  | some a =>
    if a.amount < amount then ⟨p, [], some PortfolioError.InsufficientBalance⟩
    else
      let newAssets :=
        updateFirst p.assets asset_symbol (fun x => { x with amount := x.amount - amount })
      let p1 := { p with assets := newAssets }
      let p2 := { p1 with total_value := wsub p1.total_value (wmul amount a.value) }
      ⟨p2, [Effect.tokenTransfer amount], none⟩

/-- check_risk (lib.rs 163-176): error when under the minimum threshold;
above the maximum threshold only an advisory log line is produced. -/
def check_risk (p : Portfolio) : Tx :=
  if p.total_value < p.min_value_threshold then ⟨p, [], some PortfolioError.UnderMinValue⟩
  else if p.total_value > p.max_value_threshold then ⟨p, [Effect.advisoryRebalance], none⟩
  else ⟨p, [], none⟩

/-- calculate_performance_fee (lib.rs 563-565): placeholder, always Ok(0). -/
def calculate_performance_fee (_portfolio : Portfolio) : Nat := 0

/-- apply_fees (lib.rs 209-224): compute both fees from the pre-deduction
total, deduct their (wrapping) sum in one write, emit FeesApplied. -/
def apply_fees (p : Portfolio) : Tx :=
  let management_fee := wmul p.total_value p.management_fee / 100
  let performance_fee := calculate_performance_fee p
  let p1 := { p with total_value := wsub p.total_value (wadd management_fee performance_fee) }
  ⟨p1, [Effect.feesApplied ⟨p.owner, management_fee, performance_fee⟩], none⟩

/-- apply_dynamic_fees (lib.rs 273-295): base fees as in apply_fees plus a
5 percent bonus when the pre-deduction total exceeds the threshold; one
combined deduction, emit FeesApplied. -/
def apply_dynamic_fees (p : Portfolio) (performance_bonus_threshold : Nat) : Tx :=
  let base_management_fee := wmul p.total_value p.management_fee / 100
  let base_performance_fee := calculate_performance_fee p
  let performance_bonus :=
    if p.total_value > performance_bonus_threshold then wmul p.total_value 5 / 100 else 0
  let total_performance_fee := wadd base_performance_fee performance_bonus
  let p1 := { p with
    total_value := wsub p.total_value (wadd base_management_fee total_performance_fee) }
  ⟨p1, [Effect.feesApplied ⟨p.owner, base_management_fee, total_performance_fee⟩], none⟩

/-- provide_liquidity (lib.rs 247-270): find first match, check balance,
then CPI transfer; no ledger field is written. -/
def provide_liquidity (p : Portfolio) (asset_symbol : String) (amount : Nat) : Tx :=
  match findAsset p.assets asset_symbol with
  | none => ⟨p, [], some PortfolioError.AssetNotFound⟩
  | some a =>
    if a.amount < amount then ⟨p, [], some PortfolioError.InsufficientBalance⟩
    else ⟨p, [Effect.tokenTransfer amount], none⟩

/-- Sum of the value fields of an asset list. -/
def sumValues (l : List Asset) : Nat := (l.map Asset.value).sum

/-- The ledger invariant of spec section 3: total_value equals the sum of
the asset values, read in u64 (i.e. modulo W). -/
def Invariant (p : Portfolio) : Prop := p.total_value = sumValues p.assets % W

instance (p : Portfolio) : Decidable (Invariant p) := by
  unfold Invariant
  exact inferInstance

/-- Scenario 2 portfolio of spec section 8: one asset (SOL, 100, 1000000)
and total_value 1000000. -/
def scenario2Portfolio : Portfolio :=
  { owner := 7, total_value := 1000000, total_shares := 1000000,
    assets := [⟨"SOL", 100, 1000000⟩], historical_values := [],
    last_update_timestamp := 0, min_value_threshold := 0,
    max_value_threshold := W - 1, management_fee := 0, performance_fee := 0 }

/-- Scenario 2 portfolio with a 10 percent management fee configured. -/
def feePortfolio : Portfolio := { scenario2Portfolio with management_fee := 10 }

/-- The state the code leaves behind after withdraw_asset of 50 SOL units
from the scenario 2 portfolio: amount decremented, and total_value wrapped
around to 2^64 - 49000000. -/
def wrappedWithdrawState : Portfolio :=
  { scenario2Portfolio with
    assets := [⟨"SOL", 50, 1000000⟩],
    total_value := 18446744073660551616 }

/-- Replace the value of the first asset matching a symbol, phrased by index
as in spec section 4.4: locate the first match, write T * ratio / 100 into
it, leave the list unchanged when no symbol matches. -/
def setFirstValueSpec (l : List Asset) (s : String) (v : Nat) : List Asset :=
  let i := l.findIdx (fun a => a.symbol == s)
  if i < l.length then l.set i { l.getD i ⟨"", 0, 0⟩ with value := v } else l

theorem sumValues_nil : sumValues [] = 0 := rfl

theorem sumValues_cons (a : Asset) (l : List Asset) :
    sumValues (a :: l) = a.value + sumValues l := by
  simp [sumValues]

theorem sumValues_append (l1 l2 : List Asset) :
    sumValues (l1 ++ l2) = sumValues l1 + sumValues l2 := by
  simp [sumValues]

theorem findAsset_cons (b : Asset) (t : List Asset) (s : String) :
    findAsset (b :: t) s = if b.symbol == s then some b else findAsset t s := by
  cases hb : b.symbol == s with
  | true =>
    simp only [findAsset]
    rw [@List.find?_cons_of_pos Asset (fun x => x.symbol == s) b t hb]
    simp
  | false =>
    have hnb : ¬ ((b.symbol == s) = true) := by simp [hb]
    simp only [findAsset]
    rw [@List.find?_cons_of_neg Asset (fun x => x.symbol == s) b t hnb]
    simp

theorem findAsset_updateFirst (l : List Asset) (s : String) (f : Asset → Asset)
    (hf : ∀ x, (f x).symbol = x.symbol) :
    findAsset (updateFirst l s f) s = (findAsset l s).map f := by
  induction l with
  | nil => rfl
  | cons b t ih =>
    cases hb : b.symbol == s with
    | true =>
      have hfb : ((f b).symbol == s) = true := by rw [hf]; exact hb
      simp [updateFirst, findAsset_cons, hb, hfb]
    | false =>
      simp [updateFirst, findAsset_cons, hb, ih]

theorem sumValues_updateFirst_value (l : List Asset) (s : String) (v : Nat) (a : Asset)
    (h : findAsset l s = some a) :
    sumValues (updateFirst l s (fun x => { x with value := v })) + a.value =
      sumValues l + v := by
  induction l with
  | nil => simp [findAsset] at h
  | cons b t ih =>
    cases hb : b.symbol == s with
    | true =>
      rw [findAsset_cons, if_pos hb] at h
      have hba : b = a := Option.some.inj h
      subst hba
      simp [updateFirst, hb, sumValues_cons]
      omega
    | false =>
      have hnb : ¬ ((b.symbol == s) = true) := by simp [hb]
      rw [findAsset_cons, if_neg hnb] at h
      have := ih h
      simp [updateFirst, hb, sumValues_cons]
      omega

theorem sumValues_updateFirst_keep (l : List Asset) (s : String) (f : Asset → Asset)
    (hf : ∀ x, (f x).value = x.value) :
    sumValues (updateFirst l s f) = sumValues l := by
  induction l with
  | nil => rfl
  | cons b t ih =>
    cases hb : b.symbol == s with
    | true => simp [updateFirst, hb, sumValues_cons, hf]
    | false => simp [updateFirst, hb, sumValues_cons, ih]

theorem W_pos : 0 < W := by unfold W; omega

theorem wadd_wsub_cancel (t v : Nat) (ht : t < W) :
    wadd (wsub t v) v = t := by
  simp only [wadd, wsub, W] at ht ⊢
  omega

theorem wadd_zero_left (x : Nat) (hx : x < W) : wadd 0 x = x := by
  simp only [wadd, W] at hx ⊢
  omega

theorem wsub_wadd (t m f : Nat) : wsub t (wadd m f) = wsub t (m + f) := by
  simp only [wsub, wadd, W]
  omega

theorem invariant_update_total (S Snew old v : Nat)
    (hsum : Snew + old = S + v) :
    wadd (wsub (S % W) old) v = Snew % W := by
  simp only [wadd, wsub, W] at hsum ⊢
  omega

theorem provide_liquidity_state (p : Portfolio) (s : String) (amt : Nat) :
    (provide_liquidity p s amt).state = p := by
  unfold provide_liquidity
  cases findAsset p.assets s with
  | none => rfl
  | some a =>
    by_cases hlt : a.amount < amt
    · simp [hlt]
    · simp [hlt]

theorem check_risk_state (p : Portfolio) : (check_risk p).state = p := by
  unfold check_risk
  split
  · rfl
  · split <;> rfl

theorem setFirstValueSpec_cons (b : Asset) (t : List Asset) (s : String) (v : Nat) :
    setFirstValueSpec (b :: t) s v =
      if b.symbol == s then { b with value := v } :: t
      else b :: setFirstValueSpec t s v := by
  cases hb : b.symbol == s with
  | true =>
    simp only [setFirstValueSpec, List.findIdx_cons, hb, cond_true, List.length_cons,
      if_true]
    rw [if_pos (by omega : 0 < t.length + 1), List.set_cons_zero, List.getD_cons_zero]
  | false =>
    have hf : (false = true) = False := eq_false (by simp)
    simp only [setFirstValueSpec, List.findIdx_cons, hb, cond_false, List.length_cons,
      hf, if_false]
    by_cases hlen : List.findIdx (fun a => a.symbol == s) t < t.length
    · rw [if_pos (Nat.succ_lt_succ hlen), if_pos hlen,
        List.set_cons_succ, List.getD_cons_succ]
    · rw [if_neg (fun hc => hlen (Nat.lt_of_succ_lt_succ hc)), if_neg hlen]

theorem updateFirst_value_eq_spec (l : List Asset) (s : String) (v : Nat) :
    updateFirst l s (fun x => { x with value := v }) = setFirstValueSpec l s v := by
  induction l with
  | nil => rfl
  | cons b t ih =>
    rw [setFirstValueSpec_cons, ← ih]
    rfl

theorem rebalance_foldl_spec (T : Nat) (target_ratios : List (String × Nat)) :
    ∀ l : List Asset,
      target_ratios.foldl
        (fun l2 tr => updateFirst l2 tr.1 (fun x => { x with value := wmul T tr.2 / 100 })) l =
      target_ratios.foldl
        (fun l2 tr => setFirstValueSpec l2 tr.1 (wmul T tr.2 / 100)) l := by
  induction target_ratios with
  | nil => intro l; rfl
  | cons r rest ih =>
    intro l
    simp only [List.foldl_cons]
    rw [updateFirst_value_eq_spec]
    exact ih _

/-- C1 (counterexample): the total-value invariant is NOT preserved by every
successful non-rebalance operation: starting from the scenario 2 portfolio
(one asset SOL with value 1000000, total 1000000, invariant holds),
withdraw_asset succeeds and breaks it (it lowers total_value while leaving
every asset value in place), and apply_fees on the same portfolio with a 10
percent management fee succeeds and breaks it as well. -/
theorem C1_invariant_counterexample :
    Invariant scenario2Portfolio ∧
    (withdraw_asset scenario2Portfolio "SOL" 50).error = none ∧
    ¬ Invariant (withdraw_asset scenario2Portfolio "SOL" 50).state ∧
    Invariant feePortfolio ∧
    (apply_fees feePortfolio).error = none ∧
    ¬ Invariant (apply_fees feePortfolio).state := by
  decide

/-- C1 (amended): starting from a state satisfying the invariant
total_value = sum of asset values (mod 2^64), the operations add_asset,
update_asset_value, update_asset_value_with_oracle, transfer_asset,
provide_liquidity and check_risk preserve it whenever they succeed;
withdraw_asset and apply_fees are excluded, as the counterexample shows. -/
theorem C1_invariant_preserved_amended (p : Portfolio) (hInv : Invariant p) :
    (∀ s amt v, Invariant (add_asset p s amt v).state) ∧
    (∀ s v, (update_asset_value p s v).error = none →
      Invariant (update_asset_value p s v).state) ∧
    (∀ s, (update_asset_value_with_oracle p s).error = none →
      Invariant (update_asset_value_with_oracle p s).state) ∧
    (∀ s amt, (transfer_asset p s amt).error = none →
      Invariant (transfer_asset p s amt).state) ∧
    (∀ s amt, Invariant (provide_liquidity p s amt).state) ∧
    Invariant (check_risk p).state := by
  unfold Invariant at hInv
  refine ⟨?_, ?_, ?_, ?_, ?_, ?_⟩
  · intro s amt v
    show wadd p.total_value v = sumValues (p.assets ++ [⟨s, amt, v⟩]) % W
    rw [sumValues_append, sumValues_cons, sumValues_nil, hInv]
    simp only [wadd, W]
    omega
  · intro s v herr
    cases hfind : findAsset p.assets s with
    | none => simp [update_asset_value, hfind] at herr
    | some a =>
      have hsum := sumValues_updateFirst_value p.assets s v a hfind
      unfold Invariant
      simp only [update_asset_value, hfind]
      rw [hInv]
      exact invariant_update_total _ _ _ _ hsum
  · intro s herr
    cases hfind : findAsset p.assets s with
    | none => simp [update_asset_value_with_oracle, hfind] at herr
    | some a =>
      have hsum :=
        sumValues_updateFirst_value p.assets s get_oracle_price a hfind
      unfold Invariant
      simp only [update_asset_value_with_oracle, hfind]
      rw [hInv]
      exact invariant_update_total _ _ _ _ hsum
  · intro s amt herr
    cases hfind : findAsset p.assets s with
    | none => simp [transfer_asset, hfind] at herr
    | some a =>
      by_cases hlt : a.amount < amt
      · simp [transfer_asset, hfind, hlt] at herr
      · unfold Invariant
        simp only [transfer_asset, hfind]
        rw [if_neg hlt]
        rw [sumValues_updateFirst_keep p.assets s
          (fun x => { x with amount := x.amount - amt }) (fun x => rfl)]
        exact hInv
  · intro s amt
    unfold Invariant
    rw [provide_liquidity_state]
    exact hInv
  · unfold Invariant
    rw [check_risk_state]
    exact hInv

/-- C1 (witness for the amended theorem): the scenario 2 portfolio satisfies
the invariant, and add_asset preserves it there. -/
theorem C1_invariant_preserved_amended_witness :
    Invariant scenario2Portfolio ∧
    Invariant (add_asset scenario2Portfolio "ETH" 1 5).state :=
  ⟨by decide, (C1_invariant_preserved_amended scenario2Portfolio (by decide)).1 "ETH" 1 5⟩

/-- C2 (code evaluated at the failing input): on the scenario 2 portfolio
(total_value 1000000, asset SOL with amount 100 and value 1000000),
withdraw_asset of 50 units deducts 50 * 1000000 = 50000000 from a total of
only 1000000: instead of failing fast, the code succeeds and wraps
total_value to 2^64 - 49000000. -/
theorem C2_withdraw_wraps_eval :
    scenario2Portfolio.total_value < 50 * 1000000 ∧
    withdraw_asset scenario2Portfolio "SOL" 50 =
      ⟨wrappedWithdrawState, [Effect.tokenTransfer 50], none⟩ := by
  decide

/-- C3: if the first asset with symbol s has amount a, then withdrawing
exactly a succeeds and leaves that asset with amount 0, while withdrawing
a + 1 fails with InsufficientBalance, leaves every field of the portfolio
unchanged and performs no transfer. -/
theorem C3_withdraw_boundary (p : Portfolio) (s : String) (a : Asset)
    (h : findAsset p.assets s = some a) :
    ((withdraw_asset p s a.amount).error = none ∧
      findAsset (withdraw_asset p s a.amount).state.assets s =
        some { a with amount := 0 }) ∧
    withdraw_asset p s (a.amount + 1) =
      ⟨p, [], some PortfolioError.InsufficientBalance⟩ := by
  have hnot : ¬ (a.amount < a.amount) := lt_irrefl _
  refine ⟨⟨?_, ?_⟩, ?_⟩
  · simp [withdraw_asset, h, hnot]
  · simp only [withdraw_asset, h]
    rw [if_neg hnot]
    rw [findAsset_updateFirst p.assets s
      (fun x => { x with amount := x.amount - a.amount }) (fun x => rfl), h]
    simp
  · simp [withdraw_asset, h, Nat.lt_succ_self]

/-- C3 (witness): the boundary behavior at the scenario 2 portfolio. -/
theorem C3_withdraw_boundary_witness :
    findAsset scenario2Portfolio.assets "SOL" = some ⟨"SOL", 100, 1000000⟩ ∧
    (((withdraw_asset scenario2Portfolio "SOL" 100).error = none ∧
      findAsset (withdraw_asset scenario2Portfolio "SOL" 100).state.assets "SOL" =
        some ⟨"SOL", 0, 1000000⟩) ∧
    withdraw_asset scenario2Portfolio "SOL" 101 =
      ⟨scenario2Portfolio, [], some PortfolioError.InsufficientBalance⟩) :=
  ⟨by decide,
    C3_withdraw_boundary scenario2Portfolio "SOL" ⟨"SOL", 100, 1000000⟩ (by decide)⟩

/-- C4: rebalance_portfolio never fails, leaves total_value unchanged, and
rewrites the asset list exactly as the specification describes: for each
(symbol, percentage) pair in order, the first matching asset's value is set
to T * percentage / 100 (u64 arithmetic, truncating division) where T is
total_value captured once at the start; non-matching pairs are skipped. -/
theorem C4_rebalance_matches_spec (p : Portfolio) (target_ratios : List (String × Nat)) :
    (rebalance_portfolio p target_ratios).error = none ∧
    (rebalance_portfolio p target_ratios).state.total_value = p.total_value ∧
    (rebalance_portfolio p target_ratios).state.assets =
      target_ratios.foldl
        (fun l tr => setFirstValueSpec l tr.1 (wmul p.total_value tr.2 / 100))
        p.assets := by
  refine ⟨rfl, rfl, ?_⟩
  show target_ratios.foldl
      (fun l tr => updateFirst l tr.1 (fun x => { x with value := wmul p.total_value tr.2 / 100 }))
      p.assets = _
  exact rebalance_foldl_spec p.total_value target_ratios p.assets

/-- C5: apply_dynamic_fees deducts, in one single decrement, M + P from
total_value, where M = total_value * management_fee / 100 and P equals the
base performance fee plus a bonus of total_value * 5 / 100 exactly when the
pre-deduction total_value exceeds the threshold b; both the comparison and
every fee computation use the pre-deduction total_value, and the emitted
FeesApplied event carries (M, P). -/
theorem C5_apply_dynamic_fees_spec (p : Portfolio) (b : Nat) :
    apply_dynamic_fees p b =
      let M := wmul p.total_value p.management_fee / 100
      let P := calculate_performance_fee p +
        (if p.total_value > b then wmul p.total_value 5 / 100 else 0)
      ⟨{ p with total_value := wsub p.total_value (M + P) },
        [Effect.feesApplied ⟨p.owner, M, P⟩], none⟩ := by
  have hbonus : (if p.total_value > b then wmul p.total_value 5 / 100 else 0) < W := by
    split
    · exact lt_of_le_of_lt (Nat.div_le_self _ _) (Nat.mod_lt _ W_pos)
    · exact W_pos
  simp only [apply_dynamic_fees, calculate_performance_fee]
  rw [wadd_zero_left _ hbonus, wsub_wadd, Nat.zero_add]

/-- C6: check_risk fails with UnderMinValue exactly when total_value is
below min_value_threshold, succeeds otherwise, never mutates any field of
the portfolio, and raises the advisory rebalance signal exactly when it
succeeds with total_value above max_value_threshold. -/
theorem C6_check_risk (p : Portfolio) :
    ((check_risk p).error = some PortfolioError.UnderMinValue ↔
      p.total_value < p.min_value_threshold) ∧
    ((check_risk p).error = none ↔ p.min_value_threshold ≤ p.total_value) ∧
    (check_risk p).state = p ∧
    (Effect.advisoryRebalance ∈ (check_risk p).effects ↔
      (p.min_value_threshold ≤ p.total_value ∧
        p.max_value_threshold < p.total_value)) := by
  by_cases h1 : p.total_value < p.min_value_threshold
  · simp [check_risk, h1]
  · by_cases h2 : p.total_value > p.max_value_threshold
    · simp [check_risk, h1, h2]
      omega
    · simp [check_risk, h1, h2]
      omega

/-- C7: initialize_portfolio on a fresh (zeroed) account yields total_value
0, total_shares 1000000, empty assets and history, thresholds 0 and
u64::MAX = 2^64 - 1, and zero fees. -/
theorem C7_initialize_portfolio_fields (owner : Nat) (now : Int) :
    (initialize_portfolio zeroedPortfolio owner now).total_value = 0 ∧
    (initialize_portfolio zeroedPortfolio owner now).total_shares = 1000000 ∧
    (initialize_portfolio zeroedPortfolio owner now).assets = [] ∧
    (initialize_portfolio zeroedPortfolio owner now).historical_values = [] ∧
    (initialize_portfolio zeroedPortfolio owner now).min_value_threshold = 0 ∧
    (initialize_portfolio zeroedPortfolio owner now).max_value_threshold = W - 1 ∧
    (initialize_portfolio zeroedPortfolio owner now).management_fee = 0 ∧
    (initialize_portfolio zeroedPortfolio owner now).performance_fee = 0 :=
  ⟨rfl, rfl, rfl, rfl, rfl, rfl, rfl, rfl⟩

/-- C8: on a portfolio containing an asset with symbol SOL, calling
update_asset_value with the same value v twice succeeds both times and the
second call leaves total_value exactly where the first call put it. -/
theorem C8_update_idempotent_total (p : Portfolio) (v : Nat) (a : Asset)
    (h : findAsset p.assets "SOL" = some a) (hv : v < W) :
    (update_asset_value p "SOL" v).error = none ∧
    (update_asset_value (update_asset_value p "SOL" v).state "SOL" v).error = none ∧
    (update_asset_value (update_asset_value p "SOL" v).state "SOL" v).state.total_value =
      (update_asset_value p "SOL" v).state.total_value := by
  have h1total : (update_asset_value p "SOL" v).state.total_value =
      wadd (wsub p.total_value a.value) v := by
    simp [update_asset_value, h]
  have h2find : findAsset (update_asset_value p "SOL" v).state.assets "SOL" =
      some { a with value := v } := by
    have h1assets : (update_asset_value p "SOL" v).state.assets =
        updateFirst p.assets "SOL" (fun x => { x with value := v }) := by
      simp [update_asset_value, h]
    rw [h1assets,
      findAsset_updateFirst p.assets "SOL" (fun x => { x with value := v }) (fun x => rfl),
      h]
    rfl
  refine ⟨by simp [update_asset_value, h], ?_, ?_⟩
  · set q := (update_asset_value p "SOL" v).state with hq
    simp [update_asset_value, h2find]
  · set q := (update_asset_value p "SOL" v).state with hq
    have h2total : (update_asset_value q "SOL" v).state.total_value =
        wadd (wsub q.total_value v) v := by
      simp [update_asset_value, h2find]
    rw [h2total]
    apply wadd_wsub_cancel
    rw [h1total]
    simp only [wadd]
    exact Nat.mod_lt _ W_pos

/-- C8 (witness): double update of SOL to 777 on the scenario 2 portfolio. -/
theorem C8_update_idempotent_total_witness :
    findAsset scenario2Portfolio.assets "SOL" = some ⟨"SOL", 100, 1000000⟩ ∧
    777 < W ∧
    ((update_asset_value scenario2Portfolio "SOL" 777).error = none ∧
      (update_asset_value (update_asset_value scenario2Portfolio "SOL" 777).state
        "SOL" 777).error = none ∧
      (update_asset_value (update_asset_value scenario2Portfolio "SOL" 777).state
          "SOL" 777).state.total_value =
        (update_asset_value scenario2Portfolio "SOL" 777).state.total_value) :=
  ⟨by decide, by decide,
    C8_update_idempotent_total scenario2Portfolio 777 ⟨"SOL", 100, 1000000⟩
      (by decide) (by decide)⟩

/-- C9 (counterexample): provide_liquidity does NOT decrement the asset's
amount before invoking the token transfer: withdrawing liquidity of 50 SOL
units from the scenario 2 portfolio succeeds, invokes the transfer, and
leaves the SOL amount at 100 (the claim would require 50). -/
theorem C9_provide_liquidity_counterexample :
    provide_liquidity scenario2Portfolio "SOL" 50 =
      ⟨scenario2Portfolio, [Effect.tokenTransfer 50], none⟩ ∧
    findAsset (provide_liquidity scenario2Portfolio "SOL" 50).state.assets "SOL" =
      some ⟨"SOL", 100, 1000000⟩ ∧
    findAsset (provide_liquidity scenario2Portfolio "SOL" 50).state.assets "SOL" ≠
      some ⟨"SOL", 50, 1000000⟩ := by
  decide

/-- C9 (amended): provide_liquidity performs the in-memory balance check
before the Token Transfer Service is invoked — on insufficient balance it
fails with InsufficientBalance and emits no transfer effect — but it makes
no ledger adjustment at all: on success the portfolio, including the
asset's amount and total_value, is left entirely unchanged while the
transfer effect is emitted. -/
theorem C9_provide_liquidity_amended (p : Portfolio) (s : String) (amt : Nat) (a : Asset)
    (h : findAsset p.assets s = some a) :
    (amt ≤ a.amount →
      provide_liquidity p s amt = ⟨p, [Effect.tokenTransfer amt], none⟩) ∧
    (a.amount < amt →
      provide_liquidity p s amt = ⟨p, [], some PortfolioError.InsufficientBalance⟩) := by
  constructor
  · intro hle
    have hnot : ¬ (a.amount < amt) := Nat.not_lt.mpr hle
    simp [provide_liquidity, h, hnot]
  · intro hlt
    simp [provide_liquidity, h, hlt]

/-- C9 (witness for the amended theorem): the success case at the
scenario 2 portfolio. -/
theorem C9_provide_liquidity_amended_witness :
    findAsset scenario2Portfolio.assets "SOL" = some ⟨"SOL", 100, 1000000⟩ ∧
    (50 : Nat) ≤ 100 ∧
    provide_liquidity scenario2Portfolio "SOL" 50 =
      ⟨scenario2Portfolio, [Effect.tokenTransfer 50], none⟩ :=
  ⟨by decide, by decide,
    (C9_provide_liquidity_amended scenario2Portfolio "SOL" 50 ⟨"SOL", 100, 1000000⟩
      (by decide)).1 (by decide)⟩

/-- C10: add_asset never fails: it always succeeds, appends the new asset,
sets total_value to (total_value + value) mod 2^64 — wrapping silently on
overflow — and emits the AssetUpdated event with old value 0. -/
theorem C10_add_asset_total_wraps (p : Portfolio) (s : String) (amt v : Nat) :
    add_asset p s amt v =
      ⟨{ p with
          total_value := (p.total_value + v) % W,
          assets := p.assets ++ [⟨s, amt, v⟩] },
        [Effect.assetUpdated ⟨p.owner, s, 0, v⟩], none⟩ :=
  rfl

end TokenizedPortfolio
